import Mathlib

/-!
Shallow embedding of the authentication workflow of the lingua-api backend
(src/src/auth/auth.service.ts, src/src/auth/auth.controller.ts,
src/src/auth/guards/jwt-auth.guard.ts, the AuthModule in src/unnamed/part_003
and the JwtStrategy / DTO definitions reproduced in src/unnamed/part_001).

The Credential Store is the Prisma `User` table (id, unique email, password
hash, createdAt); the Password Hasher is the external bcrypt library; the
Token Issuer is the external @nestjs/jwt + passport-jwt pair.  External
collaborators are modelled from the specification, all orchestration code is
translated from the TypeScript source.  External nondeterminism (the bcrypt
salt, the generated cuid, the clock) is passed as explicit parameters.
-/

namespace LinguaApi

/-- Result of the external bcrypt `hash` call: bcrypt embeds the random salt
inside the produced hash string, so the hash is modelled as the pair of the
hashed plaintext with its salt.  Modelled from the spec: Password Hasher
(§4.1), one-way adaptive salted hash, non-deterministic via the salt. -/
structure Hashed where
  pwd : String
  salt : Nat
deriving DecidableEq, Repr

/-- Modelled from the spec: `hash(plaintext) -> hashedValue` of the external
bcrypt library (§4.1); the salt is the explicit source of nondeterminism. -/
def bcryptHash (password : String) (salt : Nat) : Hashed :=
  { pwd := password, salt := salt }

/-- Modelled from the spec: `verify(plaintext, hashedValue) -> boolean` of the
external bcrypt library (§4.1): true exactly when the hash was produced from
this plaintext (for any salt). -/
def bcryptCompare (password : String) (h : Hashed) : Bool :=
  password == h.pwd

/-- One row of the Prisma `User` table (prisma/schema.prisma, reproduced in
src/unnamed/part_001): id String @id @default(cuid()), email String @unique,
password String, createdAt DateTime @default(now()). -/
structure User where
  id : String
  email : String
  password : Hashed
  createdAt : Nat
deriving DecidableEq, Repr

/-- The Credential Store state: the rows of the `User` table. -/
abbrev Store := List User

/-- prisma.user.findUnique({ where: { email } }). -/
def findByEmail (st : Store) (email : String) : Option User :=
  st.find? (fun u => u.email == email)

/-- prisma.user.findUnique({ where: { id } }). -/
def findById (st : Store) (id : String) : Option User :=
  st.find? (fun u => u.id == id)

/-- Modelled from the spec: failure of the store insert, i.e. Prisma
rejecting `user.create` on the `@id` / `@unique` constraints (§5, §6:
`createAccount(email, passwordHash) -> Account | fails(DuplicateAccount)`). -/
inductive DbError where
  | uniqueViolation
deriving DecidableEq, Repr

/-- prisma.user.create({ data: { email, password } }): inserts the row unless
an existing row collides on the unique email or the primary-key id, in which
case the store rejects the insert.  Modelled from the spec for the rejection
case (§5: the store's own uniqueness enforcement resolves the race). -/
def createUser (st : Store) (u : User) : Except DbError Store :=
  if st.any (fun v => v.email == u.email || v.id == u.id) then
    .error .uniqueViolation
  else
    .ok (u :: st)

/-- The three NestJS exception classes thrown by AuthService
(src/src/auth/auth.service.ts): ConflictException (409),
UnauthorizedException (401), InternalServerErrorException (500), each
carrying its message. -/
inductive AuthError where
  | conflict (msg : String)
  | unauthorized (msg : String)
  | internal (msg : String)
deriving DecidableEq, Repr

/-- The `select { id, email, createdAt }` projection used by register and
validateUser (src/src/auth/auth.service.ts lines 46-50 and 138-143). -/
structure PublicUser where
  id : String
  email : String
  createdAt : Nat
deriving DecidableEq, Repr

/-- The body returned by AuthService.register on success
(src/src/auth/auth.service.ts lines 53-56). -/
structure RegisterResponse where
  message : String
  user : PublicUser
deriving DecidableEq, Repr

/-- The JWT claim set built by AuthService.login
(src/src/auth/auth.service.ts lines 96-99): { sub: user.id, email }. -/
structure Payload where
  sub : String
  email : String
deriving DecidableEq, Repr

/-- A signed token.  Modelled from the spec: Token Issuer `issue` (§4.2)
serializes the claims plus issued-at / expiry into a string signed with the
server-held secret; the token is modelled as that record. -/
structure Token where
  payload : Payload
  secret : String
  iat : Nat
  exp : Nat
deriving DecidableEq, Repr

/-- The number of seconds in the 7-day expiresIn used by login and the
AuthModule signOptions. -/
def sevenDays : Nat := 7 * 24 * 60 * 60

/-- Modelled from the spec: jwtService.sign(payload, { secret, expiresIn:
'7d' }) (§4.2): the expiry is seven days after issuance. -/
def jwtSign (payload : Payload) (secret : String) (now : Nat) : Token :=
  { payload := payload, secret := secret, iat := now, exp := now + sevenDays }

/-- The `user` part of the login response: the
`select { id, email }` projection (src/src/auth/auth.service.ts
lines 77-81 and 113-116). -/
structure LoginUserView where
  id : String
  email : String
deriving DecidableEq, Repr

/-- The body returned by AuthService.login on success
(src/src/auth/auth.service.ts lines 111-117). -/
structure LoginResponse where
  access_token : Token
  user : LoginUserView
deriving DecidableEq, Repr

/-- AuthService.register (src/src/auth/auth.service.ts lines 26-66).
`stCheck` is the store state seen by the duplicate pre-check and `stInsert`
is the state the insert runs against — they differ exactly when a concurrent
registration commits between the two (§5); the sequential call is
`registerSeq` below.  `newId` is the cuid generated by the store, `salt` the
bcrypt salt, `now` the clock.  The returned store is the insert-time store
when the call throws (the catch block re-raises without undoing anything)
and the extended store on success.  The catch block maps any store rejection
that is not the pre-check's ConflictException to
InternalServerErrorException('Failed to register user'). -/
def register (stCheck stInsert : Store) (email password newId : String)
    (salt now : Nat) : Except AuthError RegisterResponse × Store :=
  match findByEmail stCheck email with
  | some _ => (.error (.conflict "User with this email already exists"), stInsert)
  | none =>
    match createUser stInsert
        { id := newId, email := email, password := bcryptHash password salt,
          createdAt := now } with
    | .error _ => (.error (.internal "Failed to register user"), stInsert)
    | .ok st =>
      (.ok { message := "User registered successfully",
             user := { id := newId, email := email, createdAt := now } }, st)

/-- AuthService.register in the absence of a concurrent writer: the
pre-check and the insert see the same store. -/
def registerSeq (st : Store) (email password newId : String)
    (salt now : Nat) : Except AuthError RegisterResponse × Store :=
  register st st email password newId salt now

/-- AuthService.login (src/src/auth/auth.service.ts lines 72-131).
`jwtSecret` is this.config.get('JWT_SECRET'); `now` is the clock at signing
time. -/
def login (st : Store) (email password : String) (jwtSecret : Option String)
    (now : Nat) : Except AuthError LoginResponse :=
  match findByEmail st email with
  | none => .error (.unauthorized "User not found")
  | some user =>
    if bcryptCompare password user.password then
      match jwtSecret with
      | none => .error (.internal "JWT configuration error")
      | some secret =>
        .ok { access_token :=
                jwtSign { sub := user.id, email := user.email } secret now,
              user := { id := user.id, email := user.email } }
    else
      .error (.unauthorized "Password is incorrect")

/-- AuthService.validateUser (src/src/auth/auth.service.ts lines 136-151),
the fetch-current-user operation. -/
def validateUser (st : Store) (userId : String) : Except AuthError PublicUser :=
  match findById st userId with
  | none => .error (.unauthorized "User not found")
  | some user =>
    .ok { id := user.id, email := user.email, createdAt := user.createdAt }

/-- What the Authorization header carried, after bearer extraction and JWT
decoding by passport-jwt: either a structurally well-formed token or an
undecodable string.  Modelled from the spec: Route Guard bearer extraction
(§4.4) and `MalformedToken` (§4.2). -/
inductive BearerContent where
  | wellFormed (t : Token)
  | malformed (raw : String)
deriving DecidableEq, Repr

/-- An inbound request to a guarded route: `none` when no bearer token is
present in the Authorization header. -/
structure Request where
  authorization : Option BearerContent
deriving DecidableEq, Repr

/-- The internal failure kinds of token verification, distinguished inside
passport-jwt but not shown to the caller (§4.2 / §4.4). -/
inductive VerifyError where
  | noAuthToken
  | jwtMalformed
  | invalidSignature
  | tokenExpired
deriving DecidableEq, Repr

/-- Modelled from the spec: JwtStrategy (src/unnamed/part_001) over
passport-jwt — extract the bearer token, check the signature against the
configured secret and the expiry against the clock, and return the payload
(JwtStrategy.validate is the identity on the payload).  Verification fails
exactly for: no auth token, malformed token, wrong signing secret, expired
token (§4.2). -/
def strategyVerify (req : Request) (secret : String) (now : Nat) :
    Except VerifyError Payload :=
  match req.authorization with
  | none => .error .noAuthToken
  | some (.malformed _) => .error .jwtMalformed
  | some (.wellFormed t) =>
    if t.secret = secret then
      if t.exp ≤ now then .error .tokenExpired
      else .ok t.payload
    else .error .invalidSignature

/-- JwtAuthGuard.handleRequest (src/src/auth/guards/jwt-auth.guard.ts lines
15-21): every verification failure collapses to the single
UnauthorizedException('Invalid or expired token'); on success the payload is
attached as req.user. -/
def handleRequest (result : Except VerifyError Payload) :
    Except AuthError Payload :=
  match result with
  | .error _ => .error (.unauthorized "Invalid or expired token")
  | .ok user => .ok user

/-- GET /auth/me: JwtAuthGuard in front of AuthController.getCurrentUser
(src/src/auth/auth.controller.ts lines 43-48), which calls
validateUser(req.user.sub). -/
def getCurrentUser (st : Store) (req : Request) (secret : String)
    (now : Nat) : Except AuthError PublicUser :=
  match handleRequest (strategyVerify req secret now) with
  | .error e => .error e
  | .ok user => validateUser st user.sub

/-- The JwtModule.registerAsync useFactory of AuthModule
(src/unnamed/part_003 lines 21-38): reads JWT_SECRET at startup and throws
Error('JWT_SECRET must be defined in environment variables') when it is
absent, aborting module initialization (and hence the process) before any
route is served; otherwise the module holds the secret. -/
def authModuleInit (jwtSecret : Option String) : Except String String :=
  match jwtSecret with
  | none => .error "JWT_SECRET must be defined in environment variables"
  | some secret => .ok secret

/-- Modelled from the spec: the well-formed-email check of class-validator's
IsEmail on RegisterDto (src/unnamed/part_001): one @ separating a nonempty
local part from a nonempty domain that contains a dot. -/
def isWellFormedEmail (email : String) : Bool :=
  let cs := email.toList
  let localPart := cs.takeWhile (fun c => c != '@')
  let domain := (cs.dropWhile (fun c => c != '@')).drop 1
  cs.count '@' == 1 && !localPart.isEmpty && !domain.isEmpty
    && domain.contains '.'

/-- RegisterDto validation (src/unnamed/part_001): IsEmail on email,
MinLength 8 and MaxLength 100 on password. -/
def registerDtoValid (email password : String) : Bool :=
  isWellFormedEmail email && decide (8 ≤ password.length)
    && decide (password.length ≤ 100)

/-! Claim theorems. -/

/-- C1: login with the account's email and a wrong password, and login with
an email not present in the credential store, should return the same error
kind and the same error message.  On the code the kinds agree
(UnauthorizedException in both branches) but the messages differ: 'Password
is incorrect' versus 'User not found', so the two failures are
distinguishable by the caller. -/
theorem login_failure_branches_differ :
    login [{ id := "u1", email := "a@b.com",
             password := bcryptHash "password123" 0, createdAt := 0 }]
        "a@b.com" "wrongpassword" (some "secret") 0
      = .error (.unauthorized "Password is incorrect") ∧
    login [{ id := "u1", email := "a@b.com",
             password := bcryptHash "password123" 0, createdAt := 0 }]
        "missing@b.com" "password123" (some "secret") 0
      = .error (.unauthorized "User not found") ∧
    "Password is incorrect" ≠ "User not found" :=
  ⟨rfl, rfl, by decide⟩

/-- C9: validateUser (fetch-current-user) fails with the account-absent
condition — realized in the code as the 401 UnauthorizedException
'User not found', the §7 NotFound-maps-to-401 context — exactly when no
account with the given id exists, and otherwise returns precisely the
public fields id, email, createdAt of the found account. -/
theorem validateUser_absent_fails_present_public
    (st : Store) (userId : String) :
    (findById st userId = none →
      validateUser st userId = .error (.unauthorized "User not found")) ∧
    (∀ u, findById st userId = some u →
      validateUser st userId
        = .ok { id := u.id, email := u.email, createdAt := u.createdAt }) := by
  constructor
  · intro h
    simp [validateUser, h]
  · intro u h
    simp [validateUser, h]

/-- Witness for C9 at a concrete store: the empty store has no account with
id u1, and a singleton store yields its public fields. -/
theorem validateUser_absent_fails_present_public_witness :
    validateUser [] "u1" = .error (.unauthorized "User not found") ∧
    validateUser [{ id := "u1", email := "a@b.com",
                    password := bcryptHash "password123" 0, createdAt := 0 }] "u1"
      = .ok { id := "u1", email := "a@b.com", createdAt := 0 } :=
  ⟨(validateUser_absent_fails_present_public [] "u1").1 rfl,
   (validateUser_absent_fails_present_public
      [{ id := "u1", email := "a@b.com",
         password := bcryptHash "password123" 0, createdAt := 0 }] "u1").2
     { id := "u1", email := "a@b.com",
       password := bcryptHash "password123" 0, createdAt := 0 } rfl⟩

/-- C10: when the duplicate pre-check of register finds an existing account
with the requested email, register fails with the ConflictException and the
store is returned unchanged; moreover the outcome does not depend on the
submitted password, the bcrypt salt, the generated id or the clock, so the
password is never hashed or persisted on this path. -/
theorem register_duplicate_leaves_store_unchanged
    (st : Store) (email : String) (u : User)
    (hdup : findByEmail st email = some u) :
    ∀ (p1 p2 id1 id2 : String) (s1 s2 n1 n2 : Nat),
      registerSeq st email p1 id1 s1 n1
        = (.error (.conflict "User with this email already exists"), st) ∧
      registerSeq st email p1 id1 s1 n1 = registerSeq st email p2 id2 s2 n2 := by
  intro p1 p2 id1 id2 s1 s2 n1 n2
  constructor <;> simp [registerSeq, register, hdup]

/-- Witness for C10 at a concrete store holding the email a@b.com. -/
theorem register_duplicate_leaves_store_unchanged_witness :
    registerSeq [{ id := "u1", email := "a@b.com",
                   password := bcryptHash "password123" 0, createdAt := 0 }]
        "a@b.com" "anotherpass" "u2" 3 9
      = (.error (.conflict "User with this email already exists"),
         [{ id := "u1", email := "a@b.com",
            password := bcryptHash "password123" 0, createdAt := 0 }]) ∧
    registerSeq [{ id := "u1", email := "a@b.com",
                   password := bcryptHash "password123" 0, createdAt := 0 }]
        "a@b.com" "anotherpass" "u2" 3 9
      = registerSeq [{ id := "u1", email := "a@b.com",
                       password := bcryptHash "password123" 0, createdAt := 0 }]
          "a@b.com" "thirdpass" "u3" 4 11 :=
  register_duplicate_leaves_store_unchanged
    [{ id := "u1", email := "a@b.com",
       password := bcryptHash "password123" 0, createdAt := 0 }]
    "a@b.com"
    { id := "u1", email := "a@b.com",
      password := bcryptHash "password123" 0, createdAt := 0 }
    rfl "anotherpass" "thirdpass" "u2" "u3" 3 4 9 11

/-- C3: register is non-idempotent: after a successful register for an
email, a second register with the same email — with the same or any other
password — fails with the ConflictException (DuplicateAccount, 409) and
leaves the store as the first call left it. -/
theorem register_twice_same_email_conflicts
    (st st2 : Store) (email p1 p2 id1 id2 : String) (s1 s2 n1 n2 : Nat)
    (r : RegisterResponse)
    (h : registerSeq st email p1 id1 s1 n1 = (.ok r, st2)) :
    registerSeq st2 email p2 id2 s2 n2
      = (.error (.conflict "User with this email already exists"), st2) := by
  unfold registerSeq register at h
  cases hfind : findByEmail st email with
  | some u => simp [hfind] at h
  | none =>
    simp only [hfind] at h
    cases hc : createUser st
        { id := id1, email := email, password := bcryptHash p1 s1,
          createdAt := n1 } with
    | error e => simp [hc] at h
    | ok st3 =>
      simp only [hc] at h
      have hst2 : st2
          = { id := id1, email := email, password := bcryptHash p1 s1,
              createdAt := n1 } :: st := by
        unfold createUser at hc
        by_cases hany : (st.any fun v =>
            v.email == email || v.id == id1) = true
        · simp [hany] at hc
        · have h2 : st3 = st2 := congrArg Prod.snd h
          simp only [Bool.not_eq_true] at hany
          simp [hany] at hc
          rw [← h2]
          exact hc.symm
      subst hst2
      simp [registerSeq, register, findByEmail, List.find?_cons_of_pos]

/-- Witness for C3: registering a@b.com on the empty store and then
registering it again. -/
theorem register_twice_same_email_conflicts_witness :
    registerSeq [{ id := "u1", email := "a@b.com",
                   password := bcryptHash "password123" 0, createdAt := 0 }]
        "a@b.com" "differentpw" "u2" 1 7
      = (.error (.conflict "User with this email already exists"),
         [{ id := "u1", email := "a@b.com",
            password := bcryptHash "password123" 0, createdAt := 0 }]) :=
  register_twice_same_email_conflicts [] _ "a@b.com" "password123" "differentpw"
    "u1" "u2" 0 1 0 7 _ rfl

/-- C2: for a valid DTO (well-formed email, password of 8-100 characters)
whose email is not yet registered (and a fresh generated id), register
succeeds, and a subsequent login with the same credentials succeeds and
returns a token whose sub claim is exactly the id of the account register
created. -/
theorem register_then_login_roundtrip
    (st : Store) (email password newId secret : String) (salt now now2 : Nat)
    (_hdto : registerDtoValid email password = true)
    (hemail : findByEmail st email = none)
    (hid : findById st newId = none) :
    registerSeq st email password newId salt now
      = (.ok { message := "User registered successfully",
               user := { id := newId, email := email, createdAt := now } },
         { id := newId, email := email, password := bcryptHash password salt,
           createdAt := now } :: st) ∧
    login ({ id := newId, email := email,
             password := bcryptHash password salt, createdAt := now } :: st)
        email password (some secret) now2
      = .ok { access_token := jwtSign { sub := newId, email := email } secret now2,
              user := { id := newId, email := email } } := by
  have hall : ∀ v ∈ st, ¬(v.email == email) = true := by
    simpa [findByEmail, List.find?_eq_none] using hemail
  have hallid : ∀ v ∈ st, ¬(v.id == newId) = true := by
    simpa [findById, List.find?_eq_none] using hid
  have hany : (st.any fun v => v.email == email || v.id == newId) = false := by
    rw [List.any_eq_false]
    intro v hv
    simp [hall v hv, hallid v hv]
  constructor
  · simp [registerSeq, register, hemail, createUser, hany]
  · simp [login, findByEmail, List.find?_cons_of_pos, bcryptCompare,
      bcryptHash, jwtSign]

/-- Witness for C2 on the empty store with the spec's concrete scenario
credentials. -/
theorem register_then_login_roundtrip_witness :
    registerSeq [] "a@b.com" "password123" "u1" 0 0
      = (.ok { message := "User registered successfully",
               user := { id := "u1", email := "a@b.com", createdAt := 0 } },
         [{ id := "u1", email := "a@b.com",
            password := bcryptHash "password123" 0, createdAt := 0 }]) ∧
    login [{ id := "u1", email := "a@b.com",
             password := bcryptHash "password123" 0, createdAt := 0 }]
        "a@b.com" "password123" (some "s") 5
      = .ok { access_token := jwtSign { sub := "u1", email := "a@b.com" } "s" 5,
              user := { id := "u1", email := "a@b.com" } } :=
  register_then_login_roundtrip [] "a@b.com" "password123" "u1" "s" 0 0 5
    (by decide) rfl rfl

/-- C4: successful responses expose only public account fields: register
returns the fixed message plus id, email, createdAt of the created account;
login returns the signed token (claims sub and email) plus id and email;
validateUser returns id, email, createdAt — in no case does the stored
password hash occur in the returned value (login with no configured secret
never returns a success body at all). -/
theorem responses_contain_only_public_fields
    (stCheck stInsert st : Store) (email password newId userId : String)
    (salt now : Nat) :
    (∀ r st2,
      register stCheck stInsert email password newId salt now = (.ok r, st2) →
      r = { message := "User registered successfully",
            user := { id := newId, email := email, createdAt := now } }) ∧
    (∀ r u secret, login st email password (some secret) now = .ok r →
      findByEmail st email = some u →
      r = { access_token := jwtSign { sub := u.id, email := u.email } secret now,
            user := { id := u.id, email := u.email } }) ∧
    (∀ r, login st email password none now ≠ .ok r) ∧
    (∀ r u, validateUser st userId = .ok r → findById st userId = some u →
      r = { id := u.id, email := u.email, createdAt := u.createdAt }) := by
  refine ⟨?_, ?_, ?_, ?_⟩
  · intro r st2 h
    unfold register at h
    split at h
    · simp at h
    · split at h
      · simp at h
      · simp at h
        exact h.1.symm
  · intro r u secret h hu
    unfold login at h
    rw [hu] at h
    by_cases hcmp : bcryptCompare password u.password = true
    · simp [hcmp] at h
      exact h.symm
    · simp [hcmp] at h
  · intro r h
    unfold login at h
    split at h
    · simp at h
    · split at h <;> simp at h
  · intro r u h hu
    unfold validateUser at h
    rw [hu] at h
    simp at h
    exact h.symm

/-- Witness for C4: the three success shapes at concrete inputs. -/
theorem responses_contain_only_public_fields_witness :
    ({ message := "User registered successfully",
       user := { id := "u1", email := "a@b.com", createdAt := 0 } }
        : RegisterResponse)
      = { message := "User registered successfully",
          user := { id := "u1", email := "a@b.com", createdAt := 0 } } ∧
    ({ access_token := jwtSign { sub := "u1", email := "a@b.com" } "s" 0,
       user := { id := "u1", email := "a@b.com" } } : LoginResponse)
      = { access_token := jwtSign { sub := "u1", email := "a@b.com" } "s" 0,
          user := { id := "u1", email := "a@b.com" } } ∧
    ({ id := "u1", email := "a@b.com", createdAt := 0 } : PublicUser)
      = { id := "u1", email := "a@b.com", createdAt := 0 } :=
  ⟨(responses_contain_only_public_fields [] []
      [{ id := "u1", email := "a@b.com",
         password := bcryptHash "password123" 0, createdAt := 0 }]
      "a@b.com" "password123" "u1" "u1" 0 0).1 _ _ rfl,
   (responses_contain_only_public_fields [] []
      [{ id := "u1", email := "a@b.com",
         password := bcryptHash "password123" 0, createdAt := 0 }]
      "a@b.com" "password123" "u1" "u1" 0 0).2.1 _
     { id := "u1", email := "a@b.com",
       password := bcryptHash "password123" 0, createdAt := 0 } "s" rfl rfl,
   (responses_contain_only_public_fields [] []
      [{ id := "u1", email := "a@b.com",
         password := bcryptHash "password123" 0, createdAt := 0 }]
      "a@b.com" "password123" "u1" "u1" 0 0).2.2.2 _
     { id := "u1", email := "a@b.com",
       password := bcryptHash "password123" 0, createdAt := 0 } rfl rfl⟩

/-- C5: every token-verification failure kind — missing Authorization
header, malformed token, invalid signature, validly-signed-but-expired
token — is collapsed by the guard to the single UnauthorizedException
'Invalid or expired token', and GET /auth/me returns that error whatever
the credential store holds, so the handler is never reached and the route
never returns a success body. -/
theorem guard_collapses_token_failures
    (st : Store) (req : Request) (secret : String) (now : Nat)
    (hfail : req.authorization = none
      ∨ (∃ raw, req.authorization = some (.malformed raw))
      ∨ (∃ t, req.authorization = some (.wellFormed t) ∧ t.secret ≠ secret)
      ∨ (∃ t, req.authorization = some (.wellFormed t) ∧ t.secret = secret
          ∧ t.exp ≤ now)) :
    getCurrentUser st req secret now
      = .error (.unauthorized "Invalid or expired token") := by
  rcases hfail with h | ⟨raw, h⟩ | ⟨t, h, hs⟩ | ⟨t, h, hs, he⟩
  · simp [getCurrentUser, strategyVerify, handleRequest, h]
  · simp [getCurrentUser, strategyVerify, handleRequest, h]
  · simp [getCurrentUser, strategyVerify, handleRequest, h, hs]
  · simp [getCurrentUser, strategyVerify, handleRequest, h, hs, he]

/-- Witness for C5: all four failure kinds on a store where the token's
subject does exist, so a 200 would otherwise have been possible. -/
theorem guard_collapses_token_failures_witness :
    getCurrentUser [{ id := "u1", email := "a@b.com",
                      password := bcryptHash "password123" 0, createdAt := 0 }]
        { authorization := none } "s" 0
      = .error (.unauthorized "Invalid or expired token") ∧
    getCurrentUser [{ id := "u1", email := "a@b.com",
                      password := bcryptHash "password123" 0, createdAt := 0 }]
        { authorization := some (.malformed "not-a-jwt") } "s" 0
      = .error (.unauthorized "Invalid or expired token") ∧
    getCurrentUser [{ id := "u1", email := "a@b.com",
                      password := bcryptHash "password123" 0, createdAt := 0 }]
        { authorization := some (.wellFormed
            (jwtSign { sub := "u1", email := "a@b.com" } "other" 0)) } "s" 1
      = .error (.unauthorized "Invalid or expired token") ∧
    getCurrentUser [{ id := "u1", email := "a@b.com",
                      password := bcryptHash "password123" 0, createdAt := 0 }]
        { authorization := some (.wellFormed
            (jwtSign { sub := "u1", email := "a@b.com" } "s" 0)) } "s" sevenDays
      = .error (.unauthorized "Invalid or expired token") :=
  ⟨guard_collapses_token_failures _ _ "s" 0 (Or.inl rfl),
   guard_collapses_token_failures _ _ "s" 0 (Or.inr (Or.inl ⟨"not-a-jwt", rfl⟩)),
   guard_collapses_token_failures _ _ "s" 1
     (Or.inr (Or.inr (Or.inl ⟨jwtSign { sub := "u1", email := "a@b.com" } "other" 0,
       rfl, by decide⟩))),
   guard_collapses_token_failures _ _ "s" sevenDays
     (Or.inr (Or.inr (Or.inr ⟨jwtSign { sub := "u1", email := "a@b.com" } "s" 0,
       rfl, rfl, by decide⟩)))⟩

/-- C6: when no signing secret is configured the AuthModule factory fails at
startup with the fatal configuration error, before any route is served; and
whenever startup succeeded the configuration holds a secret, so login never
hits its deferred 'JWT configuration error' branch — the missing secret is
never first detected at runtime inside an operation. -/
theorem missing_secret_is_fatal_at_startup (jwtSecret : Option String) :
    (jwtSecret = none →
      authModuleInit jwtSecret
        = .error "JWT_SECRET must be defined in environment variables") ∧
    (∀ secret, authModuleInit jwtSecret = .ok secret →
      jwtSecret = some secret ∧
      ∀ st email password now,
        login st email password jwtSecret now
          ≠ .error (.internal "JWT configuration error")) := by
  constructor
  · intro h
    simp [authModuleInit, h]
  · intro secret h
    cases jwtSecret with
    | none => simp [authModuleInit] at h
    | some s =>
      simp only [authModuleInit, Except.ok.injEq] at h
      subst h
      refine ⟨rfl, ?_⟩
      intro st email password now hcontra
      unfold login at hcontra
      split at hcontra
      · simp at hcontra
      · split at hcontra
        · simp at hcontra
        · simp at hcontra

/-- Witness for C6: absent secret fails startup; with a configured secret a
login never reports the configuration error. -/
theorem missing_secret_is_fatal_at_startup_witness :
    authModuleInit none
      = .error "JWT_SECRET must be defined in environment variables" ∧
    login [] "a@b.com" "password123" (some "s") 0
      ≠ .error (.internal "JWT configuration error") :=
  ⟨(missing_secret_is_fatal_at_startup none).1 rfl,
   ((missing_secret_is_fatal_at_startup (some "s")).2 "s" rfl).2
     [] "a@b.com" "password123" 0⟩

/-- C7 counterexample: pre-check on an empty snapshot finds no account, but
the insert runs against a store already holding a@b.com (a concurrent
registration); register then fails with
InternalServerErrorException('Failed to register user'), not with the
DuplicateAccount conflict the pre-check would have produced. -/
theorem register_insert_rejection_not_conflict :
    (register [] [{ id := "u1", email := "a@b.com",
                    password := bcryptHash "password123" 0, createdAt := 0 }]
        "a@b.com" "password456" "u2" 1 5).1
      = .error (.internal "Failed to register user") ∧
    (register [] [{ id := "u1", email := "a@b.com",
                    password := bcryptHash "password123" 0, createdAt := 0 }]
        "a@b.com" "password456" "u2" 1 5).1
      ≠ .error (.conflict "User with this email already exists") :=
  ⟨rfl, by simp [register, findByEmail, createUser]⟩

/-- C7 amended: when the pre-check finds no existing account but the store
rejects the insert on its uniqueness constraint, register fails with the
InternalServerErrorException('Failed to register user') (a 500), not with
the DuplicateAccount conflict, and the store is returned unchanged. -/
theorem register_insert_rejection_is_internal
    (stCheck stInsert : Store) (email password newId : String) (salt now : Nat)
    (h1 : findByEmail stCheck email = none)
    (h2 : createUser stInsert
        { id := newId, email := email, password := bcryptHash password salt,
          createdAt := now } = .error .uniqueViolation) :
    register stCheck stInsert email password newId salt now
      = (.error (.internal "Failed to register user"), stInsert) := by
  simp [register, h1, h2]

/-- Witness for C7's amended statement at the concrete race. -/
theorem register_insert_rejection_is_internal_witness :
    register [] [{ id := "u1", email := "a@b.com",
                   password := bcryptHash "password123" 0, createdAt := 0 }]
        "a@b.com" "password456" "u2" 1 5
      = (.error (.internal "Failed to register user"),
         [{ id := "u1", email := "a@b.com",
            password := bcryptHash "password123" 0, createdAt := 0 }]) :=
  register_insert_rejection_is_internal []
    [{ id := "u1", email := "a@b.com",
       password := bcryptHash "password123" 0, createdAt := 0 }]
    "a@b.com" "password456" "u2" 1 5 rfl rfl

/-- C8: a successful login issues a token whose claims are exactly
sub = account id and email = account email, signed with the configured
secret, issued at the call's clock with expiry exactly seven days
(7 * 24 * 60 * 60 seconds) later, and returns that token together with the
account's id and email. -/
theorem login_success_token_shape
    (st : Store) (email password secret : String) (now : Nat)
    (r : LoginResponse) (u : User)
    (h : login st email password (some secret) now = .ok r)
    (hu : findByEmail st email = some u) :
    r.access_token.payload = { sub := u.id, email := u.email } ∧
    r.access_token.iat = now ∧
    r.access_token.exp = now + 7 * 24 * 60 * 60 ∧
    r.access_token.secret = secret ∧
    r.user = { id := u.id, email := u.email } := by
  unfold login at h
  rw [hu] at h
  by_cases hcmp : bcryptCompare password u.password = true
  · simp only [hcmp, if_true, Except.ok.injEq] at h
    subst h
    simp [jwtSign, sevenDays]
  · simp [hcmp] at h

/-- Witness for C8 at a concrete account and clock. -/
theorem login_success_token_shape_witness :
    ({ access_token := jwtSign { sub := "u1", email := "a@b.com" } "s" 5,
       user := { id := "u1", email := "a@b.com" } }
        : LoginResponse).access_token.payload
      = { sub := "u1", email := "a@b.com" } ∧
    ({ access_token := jwtSign { sub := "u1", email := "a@b.com" } "s" 5,
       user := { id := "u1", email := "a@b.com" } }
        : LoginResponse).access_token.iat = 5 ∧
    ({ access_token := jwtSign { sub := "u1", email := "a@b.com" } "s" 5,
       user := { id := "u1", email := "a@b.com" } }
        : LoginResponse).access_token.exp = 5 + 7 * 24 * 60 * 60 ∧
    ({ access_token := jwtSign { sub := "u1", email := "a@b.com" } "s" 5,
       user := { id := "u1", email := "a@b.com" } }
        : LoginResponse).access_token.secret = "s" ∧
    ({ access_token := jwtSign { sub := "u1", email := "a@b.com" } "s" 5,
       user := { id := "u1", email := "a@b.com" } }
        : LoginResponse).user = { id := "u1", email := "a@b.com" } :=
  login_success_token_shape
    [{ id := "u1", email := "a@b.com",
       password := bcryptHash "password123" 0, createdAt := 0 }]
    "a@b.com" "password123" "s" 5 _
    { id := "u1", email := "a@b.com",
      password := bcryptHash "password123" 0, createdAt := 0 }
    rfl rfl

end LinguaApi
